import Mathlib

/-!
Verification development for the `sweepy` package: base class `Sweep`
(`sweep.py`) and derived class `MonoSweep` (`monosweep.py`).

The monochromator driver (package `monochromator`) is an external
collaborator: it is modelled as a `Driver` record of response functions.
Byte-string responses from the instrument are modelled as lists of byte
values (`List Nat`); the Python success acknowledgment `b'  ok\r\n'` is the
byte list `ack` below.  Console `print` calls are side effects on the
operator console only; they are not modelled.  Calls made to the driver
(the instrument commands) are recorded in an explicit trace of `Cmd`
values so that command ordering can be stated.
-/

namespace Sweepy

/-- A driver invocation made by `MonoSweep`:
either `mon.set_filter(name)` or `mon.set_nm(nm)`. -/
inductive Cmd where
  | set_filter_cmd : String → Cmd
  | set_nm_cmd : Int → Cmd
deriving DecidableEq, Repr

/-- The external monochromator driver, modelled by its response functions.
`filter_resp name = none` models the driver raising `KeyError` for an
unrecognized filter name (spec section 6: "fails with a lookup-style error
for unrecognized names"); `filter_resp name = some r` models a returned
byte response `r`.  `nm_resp nm` is the byte response to `set_nm`. -/
structure Driver where
  filter_resp : String → Option (List Nat)
  nm_resp : Int → List Nat

/-- The success acknowledgment byte sequence `b'  ok\r\n'`:
two spaces, `ok`, carriage return, newline. -/
def ack : List Nat := [32, 32, 111, 107, 13, 10]

/-- A one-character string holding an apostrophe (byte 39). -/
def sq : String := String.singleton (Char.ofNat 39)

/-- Hex digit character (lower case) for a value below 16,
as used by Python byte-string escapes. -/
def hexDigitChar (n : Nat) : Char :=
  Char.ofNat (if n < 10 then 48 + n else 87 + n)

/-- Python escape `\xhh` for a non-printable byte. -/
def byteHex (b : Nat) : String :=
  String.mk [Char.ofNat 92, Char.ofNat 120, hexDigitChar (b / 16 % 16), hexDigitChar (b % 16)]

/-- How Python `repr` renders one byte inside a bytes literal delimited by
`quote` (39 or 34): backslash and the quote are backslash-escaped, tab,
newline and carriage return use `\t`, `\n`, `\r`, printable ASCII is
rendered as itself, and everything else as `\xhh`. -/
def pyBytesReprChar (quote b : Nat) : String :=
  if b = quote ∨ b = 92 then String.mk [Char.ofNat 92, Char.ofNat b]
  else if b = 9 then String.mk [Char.ofNat 92, Char.ofNat 116]
  else if b = 10 then String.mk [Char.ofNat 92, Char.ofNat 110]
  else if b = 13 then String.mk [Char.ofNat 92, Char.ofNat 114]
  else if 32 ≤ b ∧ b < 127 then String.singleton (Char.ofNat b)
  else byteHex b

/-- Python `repr` of a bytes object, e.g. `repr(b'  ok\r\n')` is the text
`b'  ok\r\n'` with the control characters escaped.  This is what a Python
f-string interpolates for a `bytes` value, as in
`f"monochromator response: ..."` in `monosweep.py`.  Python delimits with
an apostrophe unless the bytes contain one and no double quote. -/
def pyBytesRepr (bs : List Nat) : String :=
  let quote : Nat := if bs.contains 39 ∧ ¬ bs.contains 34 then 34 else 39
  String.singleton (Char.ofNat 98) ++ String.singleton (Char.ofNat quote)
    ++ String.join (bs.map (pyBytesReprChar quote)) ++ String.singleton (Char.ofNat quote)

/-- Python `list(range(start, stop, step))` for a positive `step`:
the integers `start + step * i` while below `stop`.  (The repository only
ever builds ranges with the positive `step_nm`; for `step ≤ 0` this model
returns `[]`, where Python would return `[]` for a negative step with
`stop ≥ start` and raise `ValueError` for a zero step.) -/
def pyRange (start stop step : Int) : List Int :=
  (List.range (((stop - start).toNat + (step.toNat - 1)) / step.toNat)).map
    (fun i : Nat => start + step * (i : Int))

/-- The state of a `Sweep` object (`sweep.py`): all instance attributes
set by `Sweep.__init__` and mutated by its methods.  A `MonoSweep` object
is this state together with the external driver handle (`self.mon`),
which is modelled separately as a `Driver` argument to the methods. -/
structure Sweep where
  wavelength_to_start_using_400nm_LPF : Int
  wavelength_to_start_using_700nm_LPF : Int
  in_progress : Bool
  filter_changed : Bool
  next_filter : String
  next_wavelength : Int
  wavelengths : List Int
  start_nm : Int
  stop_nm : Int
  step_nm : Int
  save_filter : String
  save_wavelength : Int
  wavelength : Int
  filter : String
deriving DecidableEq, Repr

/-- `Sweep.set_wavelengths(start_nm, stop_nm, step_nm)`:
`self.wavelengths = list(range(start_nm, stop_nm + step_nm, step_nm))`,
then store the three parameters. -/
def Sweep.set_wavelengths (s : Sweep) (start_nm stop_nm step_nm : Int) : Sweep :=
  { s with
    wavelengths := pyRange start_nm (stop_nm + step_nm) step_nm
    start_nm := start_nm
    stop_nm := stop_nm
    step_nm := step_nm }

/-- `Sweep.__init__(start_nm, stop_nm, step_nm, next_wavelength, next_filter)`.
The Python defaults are `start_nm=350, stop_nm=850, step_nm=10,
next_wavelength=550, next_filter='BLANK'`; callers here pass all five
explicitly.  The constructor sets the two threshold constants to 420 and
720, clears both flags, stores `next_filter`/`next_wavelength`, calls
`set_wavelengths`, snapshots the save fields from the next fields, and
initializes the confirmed `wavelength`/`filter` placeholders. -/
def mkSweep (start_nm stop_nm step_nm next_wavelength : Int) (next_filter : String) : Sweep :=
  Sweep.set_wavelengths
    { wavelength_to_start_using_400nm_LPF := 420
      wavelength_to_start_using_700nm_LPF := 720
      in_progress := false
      filter_changed := false
      next_filter := next_filter
      next_wavelength := next_wavelength
      wavelengths := []
      start_nm := 0
      stop_nm := 0
      step_nm := 0
      save_filter := next_filter
      save_wavelength := next_wavelength
      wavelength := 0
      filter := "UNKNOWN" }
    start_nm stop_nm step_nm

/-- `Sweep.start()`: set `in_progress`, snapshot `next_filter` and
`next_wavelength` into the save fields, reset `next_wavelength` to
`start_nm`, and return the scan-range status string. -/
def Sweep.start (s : Sweep) : Sweep × String :=
  let s1 : Sweep :=
    { s with
      in_progress := true
      save_filter := s.next_filter
      save_wavelength := s.next_wavelength
      next_wavelength := s.start_nm }
  (s1,
    "Scan: " ++ toString s1.start_nm ++ "nm to " ++ toString s1.stop_nm
      ++ "nm in " ++ toString s1.step_nm ++ "nm steps. Moving filter...")

/-- `Sweep.stop()`: clear `in_progress` and restore `next_filter` and
`next_wavelength` from the save fields.  The Python method returns `None`
and performs no driver call, which is reflected here by the return type:
a plain state, with no status string and no command trace. -/
def Sweep.stop (s : Sweep) : Sweep :=
  { s with
    in_progress := false
    next_filter := s.save_filter
    next_wavelength := s.save_wavelength }

/-- Result of one `MonoSweep` method call: the updated state, the returned
status string, and the trace of driver invocations made during the call. -/
structure StepOut where
  state : Sweep
  ret : String
  cmds : List Cmd
deriving Repr

/-- `MonoSweep.set_filter(filter_name)`: call `mon.set_filter`; on the
exact ack store `filter_name` in `self.filter` and return
`"Filter set to '<name>'."`; on any other response return
`"monochromator response: `<repr>`"` (after printing diagnostics); on
`KeyError` (unrecognized name) return
`"ERROR: unrecognized filter name: '<name>'"`. -/
def MonoSweep.set_filter (drv : Driver) (s : Sweep) (filter_name : String) : StepOut :=
  match drv.filter_resp filter_name with
  | none =>
      { state := s
        ret := "ERROR: unrecognized filter name: " ++ sq ++ filter_name ++ sq
        cmds := [Cmd.set_filter_cmd filter_name] }
  | some response =>
      if response = ack then
        { state := { s with filter := filter_name }
          ret := "Filter set to " ++ sq ++ filter_name ++ sq ++ "."
          cmds := [Cmd.set_filter_cmd filter_name] }
      else
        { state := s
          ret := "monochromator response: `" ++ pyBytesRepr response ++ "`"
          cmds := [Cmd.set_filter_cmd filter_name] }

/-- `MonoSweep.set_nm(nm)`: call `mon.set_nm(nm)`; on the exact ack store
`nm` in `self.wavelength` and return `"Wavelength: <nm>nm."`; on any other
response return `"monochromator response: `<repr>`"` (after printing
diagnostics). -/
def MonoSweep.set_nm (drv : Driver) (s : Sweep) (nm : Int) : StepOut :=
  let response := drv.nm_resp nm
  if response = ack then
    { state := { s with wavelength := nm }
      ret := "Wavelength: " ++ toString nm ++ "nm."
      cmds := [Cmd.set_nm_cmd nm] }
  else
    { state := s
      ret := "monochromator response: `" ++ pyBytesRepr response ++ "`"
      cmds := [Cmd.set_nm_cmd nm] }

/-- The filter band `MonoSweep.step` selects for the current
`next_wavelength`: below the 400nm-LPF threshold use `'BLANK'`, below the
700nm-LPF threshold use `'400nm LPF'`, otherwise `'700nm LPF'`. -/
def expect_filter_of (s : Sweep) : String :=
  if s.next_wavelength < s.wavelength_to_start_using_400nm_LPF then "BLANK"
  else if s.next_wavelength < s.wavelength_to_start_using_700nm_LPF then "400nm LPF"
  else "700nm LPF"

/-- `MonoSweep.step()`: select the filter band for `next_wavelength` and
set `filter_changed`; if the filter changed, set `next_filter` to the band
and issue `set_filter` (its return value is discarded); issue
`set_nm(next_wavelength)` unconditionally; build the combined status
string; then, if `next_wavelength > stop_nm`, call `stop()`, re-issue the
restored filter via `set_filter` and the restored wavelength via `set_nm`
(whose status string replaces the combined one); otherwise advance
`next_wavelength` by `step_nm`.  Return the status string. -/
def MonoSweep.step (drv : Driver) (s0 : Sweep) : StepOut :=
  let expect_filter := expect_filter_of s0
  let s1 : Sweep := { s0 with filter_changed := s0.next_filter != expect_filter }
  let fOut : StepOut :=
    if s1.filter_changed then
      MonoSweep.set_filter drv { s1 with next_filter := expect_filter } expect_filter
    else
      { state := s1, ret := "", cmds := [] }
  let nOut := MonoSweep.set_nm drv fOut.state fOut.state.next_wavelength
  let s3 := nOut.state
  let status := "Filter: " ++ s3.next_filter ++ ", Wavelength: "
    ++ toString s3.next_wavelength ++ "nm"
  if s3.next_wavelength > s3.stop_nm then
    let s4 := Sweep.stop s3
    let fOut2 := MonoSweep.set_filter drv s4 s4.next_filter
    let nOut2 := MonoSweep.set_nm drv fOut2.state fOut2.state.next_wavelength
    { state := nOut2.state
      ret := nOut2.ret
      cmds := fOut.cmds ++ nOut.cmds ++ fOut2.cmds ++ nOut2.cmds }
  else
    { state := { s3 with next_wavelength := s3.next_wavelength + s3.step_nm }
      ret := status
      cmds := fOut.cmds ++ nOut.cmds }

/-- A driver that acknowledges every command, for concrete test runs. -/
def ack_driver : Driver :=
  { filter_resp := fun _ => some ack
    nm_resp := fun _ => ack }

/-- Explicit characterization of one `MonoSweep.step` call: the final
state, return string and command trace as functions of the initial state
and the driver responses.  Proved equal to `MonoSweep.step` in
`step_eq_model`; the claim proofs below rewrite with that equation. -/
def step_model (drv : Driver) (s : Sweep) : StepOut :=
  let band := expect_filter_of s
  let changed := s.next_filter != band
  let f1 : String :=
    if changed then
      (if drv.filter_resp band = some ack then band else s.filter)
    else s.filter
  let w1 : Int := if drv.nm_resp s.next_wavelength = ack then s.next_wavelength else s.wavelength
  let cmds1 : List Cmd :=
    (if changed then [Cmd.set_filter_cmd band] else []) ++ [Cmd.set_nm_cmd s.next_wavelength]
  if s.next_wavelength > s.stop_nm then
    { state :=
        { s with
          filter_changed := changed
          next_filter := s.save_filter
          next_wavelength := s.save_wavelength
          in_progress := false
          filter := if drv.filter_resp s.save_filter = some ack then s.save_filter else f1
          wavelength := if drv.nm_resp s.save_wavelength = ack then s.save_wavelength else w1 }
      ret :=
        if drv.nm_resp s.save_wavelength = ack then
          "Wavelength: " ++ toString s.save_wavelength ++ "nm."
        else
          "monochromator response: `" ++ pyBytesRepr (drv.nm_resp s.save_wavelength) ++ "`"
      cmds := cmds1 ++ [Cmd.set_filter_cmd s.save_filter, Cmd.set_nm_cmd s.save_wavelength] }
  else
    { state :=
        { s with
          filter_changed := changed
          next_filter := band
          next_wavelength := s.next_wavelength + s.step_nm
          filter := f1
          wavelength := w1 }
      ret := "Filter: " ++ band ++ ", Wavelength: " ++ toString s.next_wavelength ++ "nm"
      cmds := cmds1 }

/-- One mutating operation on the sweep state, for stating reachability
invariants: the four operations the spec names as the only mutators.
A `step` carries the driver it talks to; return strings are discarded. -/
inductive Op where
  | op_start : Op
  | op_stop : Op
  | op_step : Driver → Op
  | op_set_wavelengths : Int → Int → Int → Op

/-- Apply one operation to a sweep state (discarding status strings and
command traces). -/
def apply_op (s : Sweep) : Op → Sweep
  | Op.op_start => (Sweep.start s).1
  | Op.op_stop => Sweep.stop s
  | Op.op_step drv => (MonoSweep.step drv s).state
  | Op.op_set_wavelengths a b c => Sweep.set_wavelengths s a b c

/-- Run a list of operations from a state, left to right. -/
def run (s : Sweep) : List Op → Sweep
  | [] => s
  | op :: ops => run (apply_op s op) ops

/-- Sequence test, spec section 8: construct with
`start_nm=300, stop_nm=400, step_nm=50, next_wavelength=300`, call
`start()`, then `step()` repeatedly against an always-acknowledging
driver.  `seq_s0` is the state after `start()`. -/
def seq_s0 : Sweep := (Sweep.start (mkSweep 300 400 50 300 ("BLANK"))).1

/-- State after the first `step()` of the sequence test. -/
def seq_s1 : Sweep := (MonoSweep.step ack_driver seq_s0).state

/-- State after the second `step()` of the sequence test. -/
def seq_s2 : Sweep := (MonoSweep.step ack_driver seq_s1).state

/-- State after the third `step()` of the sequence test. -/
def seq_s3 : Sweep := (MonoSweep.step ack_driver seq_s2).state

/-- Full result of the fourth `step()` of the sequence test, the call
entered with `next_wavelength = 450 > stop_nm = 400`. -/
def seq_o4 : StepOut := MonoSweep.step ack_driver seq_s3

set_option maxHeartbeats 2000000 in
theorem step_eq_model (drv : Driver) (s : Sweep) :
    MonoSweep.step drv s = step_model drv s := by
  unfold MonoSweep.step step_model MonoSweep.set_filter MonoSweep.set_nm Sweep.stop
  cases hch : s.next_filter != expect_filter_of s with
  | false =>
    have heq : s.next_filter = expect_filter_of s := by simpa using hch
    rcases hf2 : drv.filter_resp s.save_filter with _ | r2
    · by_cases hn1 : drv.nm_resp s.next_wavelength = ack <;>
        by_cases hn2 : drv.nm_resp s.save_wavelength = ack <;>
          by_cases hgt : s.next_wavelength > s.stop_nm <;>
            simp [hch, hf2, hn1, hn2, hgt, ← heq]
    · by_cases hr2 : r2 = ack <;>
        by_cases hn1 : drv.nm_resp s.next_wavelength = ack <;>
          by_cases hn2 : drv.nm_resp s.save_wavelength = ack <;>
            by_cases hgt : s.next_wavelength > s.stop_nm <;>
              simp [hch, hf2, hr2, hn1, hn2, hgt, ← heq]
  | true =>
    rcases hf1 : drv.filter_resp (expect_filter_of s) with _ | r1
    · rcases hf2 : drv.filter_resp s.save_filter with _ | r2
      · by_cases hn1 : drv.nm_resp s.next_wavelength = ack <;>
          by_cases hn2 : drv.nm_resp s.save_wavelength = ack <;>
            by_cases hgt : s.next_wavelength > s.stop_nm <;>
              simp [hch, hf1, hf2, hn1, hn2, hgt]
      · by_cases hr2 : r2 = ack <;>
          by_cases hn1 : drv.nm_resp s.next_wavelength = ack <;>
            by_cases hn2 : drv.nm_resp s.save_wavelength = ack <;>
              by_cases hgt : s.next_wavelength > s.stop_nm <;>
                simp [hch, hf1, hf2, hr2, hn1, hn2, hgt]
    · by_cases hr1 : r1 = ack <;> rcases hf2 : drv.filter_resp s.save_filter with _ | r2
      · by_cases hn1 : drv.nm_resp s.next_wavelength = ack <;>
          by_cases hn2 : drv.nm_resp s.save_wavelength = ack <;>
            by_cases hgt : s.next_wavelength > s.stop_nm <;>
              simp [hch, hf1, hr1, hf2, hn1, hn2, hgt]
      · by_cases hr2 : r2 = ack <;>
          by_cases hn1 : drv.nm_resp s.next_wavelength = ack <;>
            by_cases hn2 : drv.nm_resp s.save_wavelength = ack <;>
              by_cases hgt : s.next_wavelength > s.stop_nm <;>
                simp [hch, hf1, hr1, hf2, hr2, hn1, hn2, hgt]
      · by_cases hn1 : drv.nm_resp s.next_wavelength = ack <;>
          by_cases hn2 : drv.nm_resp s.save_wavelength = ack <;>
            by_cases hgt : s.next_wavelength > s.stop_nm <;>
              simp [hch, hf1, hr1, hf2, hn1, hn2, hgt]
      · by_cases hr2 : r2 = ack <;>
          by_cases hn1 : drv.nm_resp s.next_wavelength = ack <;>
            by_cases hn2 : drv.nm_resp s.save_wavelength = ack <;>
              by_cases hgt : s.next_wavelength > s.stop_nm <;>
                simp [hch, hf1, hr1, hf2, hr2, hn1, hn2, hgt]

theorem step_in_progress (drv : Driver) (s : Sweep) :
    (MonoSweep.step drv s).state.in_progress =
      if s.next_wavelength > s.stop_nm then false else s.in_progress := by
  rw [step_eq_model]
  unfold step_model
  by_cases hgt : s.next_wavelength > s.stop_nm <;> simp [hgt]

theorem step_wavelengths (drv : Driver) (s : Sweep) :
    (MonoSweep.step drv s).state.wavelengths = s.wavelengths := by
  rw [step_eq_model]
  unfold step_model
  by_cases hgt : s.next_wavelength > s.stop_nm <;> simp [hgt]

theorem step_filter_changed (drv : Driver) (s : Sweep) :
    (MonoSweep.step drv s).state.filter_changed =
      (s.next_filter != expect_filter_of s) := by
  rw [step_eq_model]
  unfold step_model
  by_cases hgt : s.next_wavelength > s.stop_nm <;> simp [hgt]

/-- C2: the filter band selected by `step()` for `next_wavelength = w` on
a constructed controller (whose thresholds are 420 and 720) is `BLANK`
for `w < 420`, `400nm LPF` for `420 ≤ w < 720`, and `700nm LPF` for
`w ≥ 720`; in particular the boundary wavelengths 420 and 720 fall into
the higher band, and `step()` records in `filter_changed` whether the
current `next_filter` differs from that band. -/
theorem C2_filter_bands (drv : Driver) (a b c w : Int) (f : String) :
    expect_filter_of (mkSweep a b c w f) =
      (if w < 420 then "BLANK" else if w < 720 then "400nm LPF" else "700nm LPF") ∧
    expect_filter_of (mkSweep a b c 420 f) = "400nm LPF" ∧
    expect_filter_of (mkSweep a b c 720 f) = "700nm LPF" ∧
    (MonoSweep.step drv (mkSweep a b c w f)).state.filter_changed =
      (f != expect_filter_of (mkSweep a b c w f)) := by
  refine ⟨?_, ?_, ?_, ?_⟩
  · simp [expect_filter_of, mkSweep, Sweep.set_wavelengths]
  · norm_num [expect_filter_of, mkSweep, Sweep.set_wavelengths]
  · norm_num [expect_filter_of, mkSweep, Sweep.set_wavelengths]
  · rw [step_filter_changed]
    simp [mkSweep, Sweep.set_wavelengths]

/-- C4: `set_nm(nm)` returns `"Wavelength: {nm}nm."` and stores `nm` in
the confirmed `wavelength` attribute exactly when the driver response is
the byte sequence `b'  ok\r\n'`; on any other response it leaves the
state (in particular `wavelength`) unchanged and returns the raw response
rendered after the preface `"monochromator response: "`.  In particular a
successful `set_nm(500)` returns `"Wavelength: 500nm."` and sets
`wavelength = 500`. -/
theorem C4_set_nm (drv : Driver) (s : Sweep) (nm : Int) :
    (if drv.nm_resp nm = ack then
      (MonoSweep.set_nm drv s nm).ret = "Wavelength: " ++ toString nm ++ "nm." ∧
      (MonoSweep.set_nm drv s nm).state = { s with wavelength := nm }
    else
      (MonoSweep.set_nm drv s nm).ret =
        "monochromator response: `" ++ pyBytesRepr (drv.nm_resp nm) ++ "`" ∧
      (MonoSweep.set_nm drv s nm).state = s) ∧
    (MonoSweep.set_nm ack_driver (mkSweep 350 850 10 550 ("BLANK")) 500).ret
      = "Wavelength: 500nm." ∧
    (MonoSweep.set_nm ack_driver (mkSweep 350 850 10 550 ("BLANK")) 500).state.wavelength
      = 500 := by
  refine ⟨?_, by decide, by decide⟩
  unfold MonoSweep.set_nm
  by_cases h : drv.nm_resp nm = ack <;> simp [h]

/-- C5: `set_filter(name)` on an unrecognized name (the driver raises
`KeyError`) returns a string beginning `"ERROR:"` and leaves the state
(in particular the confirmed `filter` attribute) unchanged — the failure
is converted to a string by the local `except KeyError` handler, never
propagated, which the model reflects by `set_filter` being a total
function; on the exact ack it stores `name` in `filter` and returns the
success message embedding the name; on any other response it leaves the
state unchanged and returns the diagnostic string embedding the raw
response. -/
theorem C5_set_filter (drv : Driver) (s : Sweep) (name : String) :
    match drv.filter_resp name with
    | none =>
        (∃ rest, (MonoSweep.set_filter drv s name).ret = "ERROR:" ++ rest) ∧
        (MonoSweep.set_filter drv s name).ret =
          "ERROR: unrecognized filter name: " ++ sq ++ name ++ sq ∧
        (MonoSweep.set_filter drv s name).state = s
    | some r =>
        if r = ack then
          (MonoSweep.set_filter drv s name).ret =
            "Filter set to " ++ sq ++ name ++ sq ++ "." ∧
          (MonoSweep.set_filter drv s name).state = { s with filter := name }
        else
          (MonoSweep.set_filter drv s name).ret =
            "monochromator response: `" ++ pyBytesRepr r ++ "`" ∧
          (MonoSweep.set_filter drv s name).state = s := by
  rcases h : drv.filter_resp name with _ | r
  · have hlit : ("ERROR: unrecognized filter name: " : String)
        = "ERROR:" ++ " unrecognized filter name: " := by decide
    refine ⟨⟨" unrecognized filter name: " ++ sq ++ name ++ sq, ?_⟩, ?_, ?_⟩
    · simp only [MonoSweep.set_filter, h, String.append_assoc]
      rw [hlit, String.append_assoc]
    · simp [MonoSweep.set_filter, h]
    · simp [MonoSweep.set_filter, h]
  · by_cases hr : r = ack <;> simp [MonoSweep.set_filter, h, hr]

/-- C6: `start()` sets `in_progress`, snapshots the current `next_filter`
and `next_wavelength` into `save_filter`/`save_wavelength`, resets
`next_wavelength` to `start_nm`, leaves `next_filter` unchanged, and
returns the scan-range status string; in particular after constructing
with `next_wavelength=550, next_filter='BLANK'` (the defaults), `start()`
sets `next_wavelength = start_nm = 350` and the save fields to
`(550, 'BLANK')`. -/
theorem C6_start (s : Sweep) :
    (Sweep.start s).1.in_progress = true ∧
    (Sweep.start s).1.save_filter = s.next_filter ∧
    (Sweep.start s).1.save_wavelength = s.next_wavelength ∧
    (Sweep.start s).1.next_wavelength = s.start_nm ∧
    (Sweep.start s).1.next_filter = s.next_filter ∧
    (Sweep.start s).2 =
      "Scan: " ++ toString s.start_nm ++ "nm to " ++ toString s.stop_nm
        ++ "nm in " ++ toString s.step_nm ++ "nm steps. Moving filter..." ∧
    (Sweep.start (mkSweep 350 850 10 550 ("BLANK"))).1.next_wavelength = 350 ∧
    (Sweep.start (mkSweep 350 850 10 550 ("BLANK"))).1.save_wavelength = 550 ∧
    (Sweep.start (mkSweep 350 850 10 550 ("BLANK"))).1.save_filter = "BLANK" := by
  refine ⟨rfl, rfl, rfl, rfl, rfl, rfl, by decide, by decide, by decide⟩

/-- C7: `stop()` clears `in_progress`, restores `next_filter` and
`next_wavelength` from `save_filter`/`save_wavelength`, and leaves every
other field of the state unchanged; it returns no value and performs no
driver call (reflected in the model by its type `Sweep → Sweep`, with no
status string and no command trace). -/
theorem C7_stop_frame (s : Sweep) :
    (Sweep.stop s).in_progress = false ∧
    (Sweep.stop s).next_filter = s.save_filter ∧
    (Sweep.stop s).next_wavelength = s.save_wavelength ∧
    (Sweep.stop s).wavelength_to_start_using_400nm_LPF
      = s.wavelength_to_start_using_400nm_LPF ∧
    (Sweep.stop s).wavelength_to_start_using_700nm_LPF
      = s.wavelength_to_start_using_700nm_LPF ∧
    (Sweep.stop s).filter_changed = s.filter_changed ∧
    (Sweep.stop s).wavelengths = s.wavelengths ∧
    (Sweep.stop s).start_nm = s.start_nm ∧
    (Sweep.stop s).stop_nm = s.stop_nm ∧
    (Sweep.stop s).step_nm = s.step_nm ∧
    (Sweep.stop s).save_filter = s.save_filter ∧
    (Sweep.stop s).save_wavelength = s.save_wavelength ∧
    (Sweep.stop s).wavelength = s.wavelength ∧
    (Sweep.stop s).filter = s.filter := by
  refine ⟨rfl, rfl, rfl, rfl, rfl, rfl, rfl, rfl, rfl, rfl, rfl, rfl, rfl, rfl⟩

/-- C1: every `step()` call commands `set_nm(next_wavelength)`; then, if
`next_wavelength > stop_nm`, it calls `stop()` (clearing `in_progress`
and restoring `next_filter`/`next_wavelength` from the save fields),
re-issues the restored filter via `set_filter` and the restored
wavelength via `set_nm`, and returns that final call's
wavelength-restoration status string; otherwise it increments
`next_wavelength` by `step_nm` and returns the combined filter/wavelength
status string.  In particular, in the sequence test (construct with
`start_nm=300, stop_nm=400, step_nm=50, next_wavelength=300`, `start()`,
then `step()` repeatedly) `next_wavelength` runs through
300, 350, 400, 450, and the call entered with `next_wavelength = 450`
triggers the restoration, `in_progress` becoming false. -/
theorem C1_step (drv : Driver) (s : Sweep) :
    Cmd.set_nm_cmd s.next_wavelength ∈ (MonoSweep.step drv s).cmds ∧
    (if s.next_wavelength > s.stop_nm then
      (MonoSweep.step drv s).state.in_progress = false ∧
      (MonoSweep.step drv s).state.next_filter = s.save_filter ∧
      (MonoSweep.step drv s).state.next_wavelength = s.save_wavelength ∧
      (∃ pre, (MonoSweep.step drv s).cmds =
        pre ++ [Cmd.set_filter_cmd s.save_filter, Cmd.set_nm_cmd s.save_wavelength]) ∧
      (MonoSweep.step drv s).ret =
        (if drv.nm_resp s.save_wavelength = ack then
          "Wavelength: " ++ toString s.save_wavelength ++ "nm."
        else
          "monochromator response: `" ++ pyBytesRepr (drv.nm_resp s.save_wavelength) ++ "`")
    else
      (MonoSweep.step drv s).state.next_wavelength = s.next_wavelength + s.step_nm ∧
      (MonoSweep.step drv s).ret =
        "Filter: " ++ expect_filter_of s ++ ", Wavelength: "
          ++ toString s.next_wavelength ++ "nm") ∧
    (seq_s0.next_wavelength = 300 ∧ seq_s0.in_progress = true ∧
     seq_s1.next_wavelength = 350 ∧ seq_s2.next_wavelength = 400 ∧
     seq_s3.next_wavelength = 450 ∧ seq_s3.in_progress = true ∧
     seq_o4.state.in_progress = false ∧ seq_o4.state.next_wavelength = 300 ∧
     seq_o4.state.next_filter = "BLANK") := by
  refine ⟨?_, ?_, by decide⟩
  · rw [step_eq_model]
    unfold step_model
    cases hch : s.next_filter != expect_filter_of s <;>
      by_cases hgt : s.next_wavelength > s.stop_nm <;>
        simp [hch, hgt]
  · rw [step_eq_model]
    unfold step_model
    by_cases hgt : s.next_wavelength > s.stop_nm
    · simp only [hgt, if_true]
      refine ⟨trivial, trivial, trivial, ?_, trivial⟩
      exact ⟨(if s.next_filter != expect_filter_of s
          then [Cmd.set_filter_cmd (expect_filter_of s)] else [])
        ++ [Cmd.set_nm_cmd s.next_wavelength], by simp⟩
    · simp [hgt]

/-- C9: the trace of driver commands issued by one `step()` call is
exactly: the filter-change command (present only when the filter must
change), then the wavelength-set command for `next_wavelength`, then — in
the completion case only — the restoration pair, filter first, wavelength
second.  In both movement phases the filter-wheel command strictly
precedes the grating command; `step()` never commands the grating before
the filter wheel that the same phase requires. -/
theorem C9_filter_before_grating (drv : Driver) (s : Sweep) :
    (MonoSweep.step drv s).cmds =
      (if s.next_filter != expect_filter_of s
        then [Cmd.set_filter_cmd (expect_filter_of s)] else [])
      ++ [Cmd.set_nm_cmd s.next_wavelength]
      ++ (if s.next_wavelength > s.stop_nm
        then [Cmd.set_filter_cmd s.save_filter, Cmd.set_nm_cmd s.save_wavelength]
        else []) := by
  rw [step_eq_model]
  unfold step_model
  cases hch : s.next_filter != expect_filter_of s <;>
    by_cases hgt : s.next_wavelength > s.stop_nm <;>
      simp [hch, hgt]

/-- C10: `step()` never reads `in_progress`: for two states that differ
only in `in_progress`, `step()` returns the same status string, issues
the same command trace, and produces the same final state up to the
`in_progress` field; in particular `step()` on a freshly constructed
controller (`in_progress = false`, `start()` never called) still commands
the instrument and advances `next_wavelength`. -/
theorem C10_step_independent_of_in_progress (drv : Driver) (s : Sweep) (b1 b2 : Bool) :
    (MonoSweep.step drv { s with in_progress := b1 }).ret
      = (MonoSweep.step drv { s with in_progress := b2 }).ret ∧
    (MonoSweep.step drv { s with in_progress := b1 }).cmds
      = (MonoSweep.step drv { s with in_progress := b2 }).cmds ∧
    { (MonoSweep.step drv { s with in_progress := b1 }).state with in_progress := false }
      = { (MonoSweep.step drv { s with in_progress := b2 }).state with in_progress := false } ∧
    ((mkSweep 300 400 50 300 ("BLANK")).in_progress = false ∧
     (MonoSweep.step ack_driver (mkSweep 300 400 50 300 ("BLANK"))).cmds ≠ [] ∧
     (MonoSweep.step ack_driver (mkSweep 300 400 50 300 ("BLANK"))).state.next_wavelength
       = 350) := by
  refine ⟨?_, ?_, ?_, by decide, by decide, by decide⟩ <;>
    · simp only [step_eq_model]
      unfold step_model
      cases hch : s.next_filter != expect_filter_of s <;>
        by_cases hgt : s.next_wavelength > s.stop_nm <;>
          simp [hch, hgt, expect_filter_of]


/-- Head of the arithmetic list `a, a+c, ..., a+c*n`. -/
lemma mapRange_head (a c : Int) (n : Nat) :
    ((List.range (n+1)).map (fun i : Nat => a + c * (i:Int))).head? = some a := by
  rw [List.range_succ_eq_map]
  simp

/-- Last element of the arithmetic list `a, a+c, ..., a+c*n`. -/
lemma mapRange_last (a c : Int) (n : Nat) :
    ((List.range (n+1)).map (fun i : Nat => a + c * (i:Int))).getLast? = some (a + c * n) := by
  rw [List.range_succ, List.map_append]
  simp

/-- Consecutive elements of the arithmetic list differ by `c`. -/
lemma mapRange_chain (a c : Int) (n : Nat) :
    List.Chain' (fun x y => y = x + c) ((List.range n).map (fun i : Nat => a + c * (i:Int))) := by
  rw [List.chain'_map]
  cases n with
  | zero => simp
  | succ m =>
    rw [List.chain'_range_succ]
    intro i hi
    push_cast
    ring

/-- When `c` divides `b - a` (and `a ≤ b`, `0 < c`), the Python range
`range(a, b + c, c)` is the arithmetic list `a, a+c, ..., a + c*K` with
`K = (b-a)/c` — i.e. exactly the multiples-of-`c` ladder from `a` ending
at `b`. -/
lemma pyRange_step_dvd (a b c : Int) (hab : a ≤ b) (hc : 0 < c) (hdvd : c ∣ b - a) :
    pyRange a (b + c) c
      = (List.range ((b - a).toNat / c.toNat + 1)).map (fun i : Nat => a + c * (i:Int)) := by
  obtain ⟨k, hk⟩ := hdvd
  have hk0 : 0 ≤ k := by nlinarith
  have hcS : ((c.toNat : Int)) = c := Int.toNat_of_nonneg hc.le
  have hkK : ((k.toNat : Int)) = k := Int.toNat_of_nonneg hk0
  have hS : 0 < c.toNat := by omega
  have h2 : (b + c - a).toNat = c.toNat * (k.toNat + 1) := by
    have h1 : b + c - a = c * (k + 1) := by linarith
    rw [h1, ← hcS, ← hkK]
    norm_cast
  have h3 : (b - a).toNat = c.toNat * k.toNat := by
    have h1 : b - a = c * k := by linarith
    rw [h1, ← hcS, ← hkK]
    norm_cast
  unfold pyRange
  congr 2
  rw [h2, h3, Nat.mul_add_div hS, Nat.mul_div_cancel_left _ hS, Nat.div_eq_of_lt (by omega)]

/-- C3 counterexample: the claim quantifies over every
`stop_nm ≥ start_nm`, `step_nm > 0`, but for `set_wavelengths(300, 540, 50)`
(allowed parameters: `300 ≤ 540`, `50 > 0`) the computed list is
`[300, 350, 400, 450, 500, 550]`, which is not the ordered sequence of
integers from 300 to 540 inclusive stepped by 50: `stop_nm = 540` does
not occur, and the last element 550 exceeds `stop_nm`. -/
theorem C3_counterexample :
    (300:Int) ≤ 540 ∧ (0:Int) < 50 ∧
    (Sweep.set_wavelengths (mkSweep 350 850 10 550 ("BLANK")) 300 540 50).wavelengths
      = [300, 350, 400, 450, 500, 550] ∧
    (540:Int) ∉ (Sweep.set_wavelengths (mkSweep 350 850 10 550 ("BLANK")) 300 540 50).wavelengths ∧
    (Sweep.set_wavelengths (mkSweep 350 850 10 550 ("BLANK")) 300 540 50).wavelengths.getLast?
      = some 550 := by
  refine ⟨by norm_num, by norm_num, by decide, by decide, by decide⟩

/-- C3 (amended): for every `start_nm ≤ stop_nm`, `step_nm > 0` with
`step_nm` dividing `stop_nm - start_nm`, `set_wavelengths` stores the
three parameters and sets `wavelengths` to the ordered sequence of
integers from `start_nm` to `stop_nm` inclusive, stepped by `step_nm`
(first element `start_nm`, last element `stop_nm`, consecutive elements
differing by `step_nm`, all elements within the range); in particular
`set_wavelengths(300, 550, 50)` produces `[300, 350, 400, 450, 500, 550]`.
(Without the divisibility condition the generated
`range(start_nm, stop_nm + step_nm, step_nm)` can overshoot `stop_nm`,
see the counterexample.) -/
theorem C3_set_wavelengths_amended (s : Sweep) (a b c : Int)
    (hab : a ≤ b) (hc : 0 < c) (hdvd : c ∣ b - a) :
    (Sweep.set_wavelengths s a b c).start_nm = a ∧
    (Sweep.set_wavelengths s a b c).stop_nm = b ∧
    (Sweep.set_wavelengths s a b c).step_nm = c ∧
    (Sweep.set_wavelengths s a b c).wavelengths.head? = some a ∧
    (Sweep.set_wavelengths s a b c).wavelengths.getLast? = some b ∧
    List.Chain' (fun x y => y = x + c) (Sweep.set_wavelengths s a b c).wavelengths ∧
    (∀ x ∈ (Sweep.set_wavelengths s a b c).wavelengths, a ≤ x ∧ x ≤ b) ∧
    (Sweep.set_wavelengths s 300 550 50).wavelengths = [300, 350, 400, 450, 500, 550] := by
  have hw : (Sweep.set_wavelengths s a b c).wavelengths
      = (List.range ((b - a).toNat / c.toNat + 1)).map (fun i : Nat => a + c * (i:Int)) :=
    pyRange_step_dvd a b c hab hc hdvd
  have hK : a + c * (((b - a).toNat / c.toNat : Nat) : Int) = b := by
    obtain ⟨k, hk⟩ := hdvd
    have hk0 : 0 ≤ k := by nlinarith
    have hS : 0 < c.toNat := by omega
    have h3 : (b - a).toNat = c.toNat * k.toNat := by
      have h1 : b - a = c * k := by linarith
      rw [h1, ← Int.toNat_of_nonneg hc.le, ← Int.toNat_of_nonneg hk0]
      norm_cast
    rw [h3, Nat.mul_div_cancel_left _ hS, Int.toNat_of_nonneg hk0]
    linarith
  refine ⟨rfl, rfl, rfl, ?_, ?_, ?_, ?_,
    by show pyRange 300 (550 + 50) 50 = [300, 350, 400, 450, 500, 550]; decide⟩
  · rw [hw]
    exact mapRange_head a c _
  · rw [hw, mapRange_last, hK]
  · rw [hw]
    exact mapRange_chain a c _
  · rw [hw]
    intro x hx
    simp only [List.mem_map, List.mem_range] at hx
    obtain ⟨i, hi, rfl⟩ := hx
    have hi0 : (0:Int) ≤ (i:Int) := Int.natCast_nonneg i
    have hiK : (i : Int) ≤ (((b - a).toNat / c.toNat : Nat) : Int) := by
      exact_mod_cast Nat.lt_succ_iff.mp hi
    constructor
    · nlinarith
    · nlinarith [mul_le_mul_of_nonneg_left hiK hc.le]

/-- C3 witness: the amended theorem applied at
`set_wavelengths(300, 550, 50)` (where `300 ≤ 550`, `0 < 50`, and
`50 ∣ 250`): the last generated wavelength is `stop_nm = 550`. -/
theorem C3_witness :
    ((300:Int) ≤ 550 ∧ (0:Int) < 50 ∧ (50:Int) ∣ 550 - 300) ∧
    (Sweep.set_wavelengths (mkSweep 350 850 10 550 ("BLANK")) 300 550 50).wavelengths.getLast?
      = some 550 :=
  ⟨⟨by norm_num, by norm_num, ⟨5, by norm_num⟩⟩,
   ((C3_set_wavelengths_amended (mkSweep 350 850 10 550 ("BLANK")) 300 550 50
      (by norm_num) (by norm_num) ⟨5, by norm_num⟩).2.2.2.2.1)⟩

/-- Any operation other than `start()` leaves a cleared `in_progress`
flag cleared. -/
lemma no_start_preserves (s : Sweep) (op : Op) (hop : op ≠ Op.op_start)
    (h : s.in_progress = false) : (apply_op s op).in_progress = false := by
  cases op with
  | op_start => exact absurd rfl hop
  | op_stop => simp [apply_op, Sweep.stop]
  | op_step drv => simp [apply_op, step_in_progress, h]
  | op_set_wavelengths a b c => simp [apply_op, Sweep.set_wavelengths, h]

/-- A run of operations containing no `start()` keeps `in_progress`
false. -/
lemma run_no_start (ops : List Op) : ∀ s : Sweep, s.in_progress = false →
    (∀ op ∈ ops, op ≠ Op.op_start) → (run s ops).in_progress = false := by
  induction ops with
  | nil =>
    intro s h _
    simpa [run] using h
  | cons op ops ih =>
    intro s h hops
    show (run (apply_op s op) ops).in_progress = false
    exact ih _ (no_start_preserves s op (hops op (List.mem_cons_self op ops)) h)
      (fun o ho => hops o (List.mem_cons_of_mem op ho))

/-- C8: `in_progress` is false in every state reachable from construction
by a run of operations that contains no `start()`; a transition from
false to true happens only at `start()`; a transition from true to false
happens only at `stop()` or at a `step()` entered with
`next_wavelength > stop_nm` (and both of those always leave it false);
and `wavelengths` always equals the list generated by the most recent
`set_wavelengths` call: every other operation leaves `wavelengths`
untouched, and `set_wavelengths(a, b, c)` sets it to
`list(range(a, b + c, c))` regardless of the prior state.  (Construction
itself establishes the last invariant by calling `set_wavelengths`.) -/
theorem C8_invariants :
    (∀ a b c nw f ops, (∀ op ∈ ops, op ≠ Op.op_start) →
        (run (mkSweep a b c nw f) ops).in_progress = false) ∧
    (∀ s op, s.in_progress = false → (apply_op s op).in_progress = true →
        op = Op.op_start) ∧
    (∀ s op, s.in_progress = true → (apply_op s op).in_progress = false →
        op = Op.op_stop ∨ ∃ drv, op = Op.op_step drv ∧ s.next_wavelength > s.stop_nm) ∧
    (∀ s, (Sweep.stop s).in_progress = false) ∧
    (∀ drv s, s.next_wavelength > s.stop_nm →
        (MonoSweep.step drv s).state.in_progress = false) ∧
    (∀ s op, (∀ x y z, op ≠ Op.op_set_wavelengths x y z) →
        (apply_op s op).wavelengths = s.wavelengths) ∧
    (∀ s a b c, (apply_op s (Op.op_set_wavelengths a b c)).wavelengths
        = pyRange a (b + c) c) := by
  refine ⟨?_, ?_, ?_, fun s => rfl, ?_, ?_, fun s a b c => rfl⟩
  · intro a b c nw f ops hops
    exact run_no_start ops _ (by simp [mkSweep, Sweep.set_wavelengths]) hops
  · intro s op h0 h1
    cases op with
    | op_start => rfl
    | op_stop => simp [apply_op, Sweep.stop] at h1
    | op_step drv => simp [apply_op, step_in_progress, h0] at h1
    | op_set_wavelengths a b c => simp [apply_op, Sweep.set_wavelengths, h0] at h1
  · intro s op h0 h1
    cases op with
    | op_start => simp [apply_op, Sweep.start] at h1
    | op_stop => exact Or.inl rfl
    | op_step drv =>
      refine Or.inr ⟨drv, rfl, ?_⟩
      by_contra hng
      simp [apply_op, step_in_progress, hng, h0] at h1
    | op_set_wavelengths a b c => simp [apply_op, Sweep.set_wavelengths, h0] at h1
  · intro drv s h
    rw [step_in_progress]
    simp [h]
  · intro s op hop
    cases op with
    | op_start => simp [apply_op, Sweep.start]
    | op_stop => simp [apply_op, Sweep.stop]
    | op_step drv => simp [apply_op, step_wavelengths]
    | op_set_wavelengths x y z => exact absurd rfl (hop x y z)

/-- C8 witness: a concrete start-free run — construction followed by
`stop()`, `set_wavelengths(1, 5, 2)` and a `step()` against the
acknowledging driver — ends with `in_progress` still false. -/
theorem C8_witness :
    (run (mkSweep 300 400 50 300 ("BLANK"))
      [Op.op_stop, Op.op_set_wavelengths 1 5 2, Op.op_step ack_driver]).in_progress
      = false :=
  C8_invariants.1 300 400 50 300 ("BLANK")
    [Op.op_stop, Op.op_set_wavelengths 1 5 2, Op.op_step ack_driver]
    (by
      intro op hop
      rcases hop with _ | ⟨_, _ | ⟨_, _ | ⟨_, ⟨⟩⟩⟩⟩ <;> rintro ⟨⟩)

end Sweepy
